import Mathlib

/-!
# VsOSH cloud monitor: page classifier, monitor state machine, token gate

A shallow embedding of `src/index.js`.

Modelling conventions

* A JavaScript string is the list of its UTF-16 code units (`JsString`); `utf16`
  encodes a literal of the source.  Human-readable messages that the program only
  stores and never inspects are kept as `String`.
* `\s` of a regular expression and `String.prototype.trim` use the ECMAScript
  WhiteSpace and LineTerminator code points (`isWhiteSpace`).
* The Unicode case tables of the runtime are a parameter (`UnicodeCase`): every
  general theorem holds for any tables.  `basicCase` is their restriction to Basic
  Latin and to the Cyrillic block U+0400..U+045F, and is used only to evaluate the
  program on texts written with those letters.
* `Date.now()` readings are natural numbers of milliseconds (`Timestamp`).  The ISO
  rendering is injective, so a rendered date is kept as its time value; `toIso` keeps the
  RangeError that `toISOString` raises beyond the largest time value of a `Date`.
* Counters (`readyStreak`, `checkCount`) and the integer-valued setting
  `readyConfirmChecks` are natural numbers (IEEE doubles below 2^53).
  `checkIntervalMs` is a whole number of milliseconds with no upper bound, as in the
  configuration, which only clamps it from below.
-/

set_option maxRecDepth 100000

namespace VsOSH

/-! ## Strings -/

abbrev CodeUnit := Nat

abbrev JsString := List CodeUnit

/-- UTF-16 encoding of one Unicode scalar value. -/
def utf16Char (c : Char) : List CodeUnit :=
  if c.toNat < 0x10000 then [c.toNat]
  else [0xD800 + (c.toNat - 0x10000) / 0x400, 0xDC00 + (c.toNat - 0x10000) % 0x400]

/-- UTF-16 encoding of a source literal. -/
def utf16 (s : String) : JsString :=
  (s.toList.map utf16Char).flatten

/-- ECMAScript LineTerminator: LF, CR, LS, PS. -/
def isLineTerminator (c : CodeUnit) : Bool :=
  c == 0x0A || c == 0x0D || c == 0x2028 || c == 0x2029

/-- ECMAScript WhiteSpace or LineTerminator: what `\s` matches and `trim` strips. -/
def isWhiteSpace (c : CodeUnit) : Bool :=
  c == 0x09 || c == 0x0B || c == 0x0C || c == 0x20 || c == 0xA0 || c == 0x1680 ||
  (0x2000 ≤ c && c ≤ 0x200A) || c == 0x202F || c == 0x205F || c == 0x3000 || c == 0xFEFF ||
  isLineTerminator c

/-- The replacement `.replace(/\s+/g, " ")`: every maximal run of white space becomes
one space.  `inRun` tells that the previous code unit was white space. -/
def replaceWhitespaceRuns : Bool → JsString → JsString
  | _, [] => []
  | inRun, c :: rest =>
    if isWhiteSpace c then
      if inRun then replaceWhitespaceRuns true rest
      else 0x20 :: replaceWhitespaceRuns true rest
    else c :: replaceWhitespaceRuns false rest

/-- `String.prototype.trim`. -/
def trim (s : JsString) : JsString :=
  ((s.dropWhile isWhiteSpace).reverse.dropWhile isWhiteSpace).reverse

/-- `normalizeText` (index.js 54-56): `String(input || "").replace(/\s+/g, " ").trim()`. -/
def normalizeText (input : JsString) : JsString :=
  trim (replaceWhitespaceRuns false input)

/-- `String.prototype.includes`. -/
def includes (haystack needle : JsString) : Bool :=
  haystack.tails.any (fun t => needle.isPrefixOf t)

/-- `String.prototype.startsWith`. -/
def startsWith (s head : JsString) : Bool :=
  head.isPrefixOf s

/-- The case conversions of the JavaScript runtime (Unicode tables). -/
structure UnicodeCase where
  toLowerCase : JsString → JsString
  toUpperCase : JsString → JsString

/-- Lower-case mapping of one code unit on Basic Latin and Cyrillic U+0400..U+042F. -/
def basicLower (c : CodeUnit) : CodeUnit :=
  if 0x41 ≤ c ∧ c ≤ 0x5A then c + 0x20
  else if 0x410 ≤ c ∧ c ≤ 0x42F then c + 0x20
  else if 0x400 ≤ c ∧ c ≤ 0x40F then c + 0x50
  else c

/-- Upper-case mapping of one code unit on Basic Latin and Cyrillic U+0430..U+045F. -/
def basicUpper (c : CodeUnit) : CodeUnit :=
  if 0x61 ≤ c ∧ c ≤ 0x7A then c - 0x20
  else if 0x430 ≤ c ∧ c ≤ 0x44F then c - 0x20
  else if 0x450 ≤ c ∧ c ≤ 0x45F then c - 0x50
  else c

/-- The case tables restricted to Basic Latin and basic Cyrillic. -/
def basicCase : UnicodeCase where
  toLowerCase := fun s => s.map basicLower
  toUpperCase := fun s => s.map basicUpper

/-! ## Regular expressions of the source

All patterns of the file are case-insensitive (`/i`, no `u` flag) sequences of literal
characters, one of them with an optional wildcard `.?`. -/

inductive RegexItem where
  | char (c : CodeUnit)
  | optionalAny
  deriving DecidableEq, Repr

abbrev Regex := List RegexItem

/-- A literal pattern. -/
def Regex.literal (s : String) : Regex :=
  (utf16 s).map RegexItem.char

/-- ECMAScript `Canonicalize` for an `/i` pattern without the `u` flag. -/
def canonicalize (uc : UnicodeCase) (ch : CodeUnit) : CodeUnit :=
  match uc.toUpperCase [ch] with
  | [cu] => if 128 ≤ ch ∧ cu < 128 then ch else cu
  | _ => ch

/-- Backtracking match of a pattern at the start of `s`; `.?` is greedy. -/
def matchHere (uc : UnicodeCase) : Regex → JsString → Bool
  | [], _ => true
  | .char _ :: _, [] => false
  | .char p :: ps, c :: cs => canonicalize uc p == canonicalize uc c && matchHere uc ps cs
  | .optionalAny :: ps, [] => matchHere uc ps []
  | .optionalAny :: ps, c :: cs =>
    (!isLineTerminator c && matchHere uc ps cs) || matchHere uc ps (c :: cs)

/-- The method `RegExp.prototype.test` of an unanchored pattern. -/
def Regex.test (uc : UnicodeCase) (pattern : Regex) (s : JsString) : Bool :=
  s.tails.any (matchHere uc pattern)

/-! ## Configuration and status -/

abbrev Timestamp := Nat

/-- The fields of `config` (index.js 224-242) that the monitor and the gate read. -/
structure Config where
  targetUrl : JsString
  pendingTexts : List JsString
  autoChecksEnabled : Bool
  checkIntervalMs : Nat
  readyConfirmChecks : Nat
  watchToken : JsString
  deriving DecidableEq, Repr

/-- The configuration obtained with an empty environment, `CLOUD_WATCH_TOKEN` apart. -/
def defaultConfig (watchToken : JsString) : Config where
  targetUrl := utf16 "https://my.sirius.online/activity-page/cpm:vsosh-region-law-2026"
  pendingTexts := [utf16 "Ожидание результатов"]
  autoChecksEnabled := false
  checkIntervalMs := 30000
  readyConfirmChecks := 2
  watchToken := watchToken

/-- The values of `STATUS` (index.js 244-251). -/
inductive Status where
  | INITIALIZING
  | PENDING
  | READY
  | AUTH_REQUIRED
  | VERIFYING
  | ERROR
  deriving DecidableEq, Repr

/-- The string each member of `STATUS` stands for. -/
def Status.value : Status → String
  | .INITIALIZING => "initializing"
  | .PENDING => "pending"
  | .READY => "ready"
  | .AUTH_REQUIRED => "auth_required"
  | .VERIFYING => "verifying"
  | .ERROR => "error"

/-- `STATUS_LABELS` (index.js 253-260). -/
def STATUS_LABELS : Status → String
  | .INITIALIZING => "Инициализация"
  | .PENDING => "Ожидание результатов"
  | .READY => "Результаты опубликованы"
  | .AUTH_REQUIRED => "Нужна авторизация"
  | .VERIFYING => "Проверка/загрузка"
  | .ERROR => "Ошибка проверки"

/-- `authTextPatterns` (index.js 262). -/
def authTextPatterns : List Regex :=
  [Regex.literal "авторизац", Regex.literal "войти", Regex.literal "sign in",
   Regex.literal "log in", Regex.literal "login"]

/-- `challengePatterns` (index.js 263-268). -/
def challengePatterns : List Regex :=
  [Regex.literal "ваш браузер не смог пройти проверку",
   Regex.literal "enable javascript",
   Regex.literal "js" ++ [RegexItem.optionalAny] ++ Regex.literal "challenge",
   Regex.literal "проверку браузера"]

/-! ## The page classifier -/

/-- What `evaluatePage` returns. -/
structure Evaluated where
  status : Status
  message : String
  deriving DecidableEq, Repr

/-- First test of `evaluatePage` (index.js 313). -/
def matchesChallenge (uc : UnicodeCase) (normalized : JsString) : Bool :=
  challengePatterns.any (fun pattern => pattern.test uc normalized)

/-- Second test of `evaluatePage` (index.js 320-324). -/
def needsAuthorization (uc : UnicodeCase) (normalized lowerUrl : JsString) : Bool :=
  includes lowerUrl (utf16 "/login") || includes lowerUrl (utf16 "/auth") ||
  authTextPatterns.any (fun pattern => pattern.test uc normalized)

/-- The value `hasPending` of `evaluatePage` (index.js 331-334). -/
def hasPending (uc : UnicodeCase) (cfg : Config) (lowerText : JsString) : Bool :=
  cfg.pendingTexts.any (fun value =>
    let pattern := uc.toLowerCase (trim value)
    !pattern.isEmpty && includes lowerText pattern)

/-- The progress message of the debounce branch (index.js 348). -/
def verifyingMessage (readyStreak readyConfirmChecks : Nat) : String :=
  "Подтверждение публикации (" ++ toString readyStreak ++ "/" ++
    toString readyConfirmChecks ++ ")"

/-- `CloudVsoshMonitor.evaluatePage` (index.js 308-356).  The field `this.readyStreak`
is passed in and returned next to the result. -/
def evaluatePage (uc : UnicodeCase) (cfg : Config) (readyStreak : Nat)
    (text url : JsString) : Evaluated × Nat :=
  let normalized := normalizeText text
  let lowerText := uc.toLowerCase normalized
  let lowerUrl := uc.toLowerCase url
  if matchesChallenge uc normalized then
    (⟨Status.VERIFYING, "Сработала anti-bot проверка браузера"⟩, readyStreak)
  else if needsAuthorization uc normalized lowerUrl then
    (⟨Status.AUTH_REQUIRED, "На cloud-сервере нужна авторизация в Sirius"⟩, readyStreak)
  else if hasPending uc cfg lowerText then
    (⟨Status.PENDING, "Результатов пока нет"⟩, 0)
  else
    let readyStreak := readyStreak + 1
    if readyStreak < cfg.readyConfirmChecks then
      (⟨Status.VERIFYING, verifyingMessage readyStreak cfg.readyConfirmChecks⟩, readyStreak)
    else
      (⟨Status.READY, "Факт публикации результатов подтвержден"⟩, readyStreak)

/-! ## Monitor state -/

/-- The object `this.state` (index.js 279-289). -/
structure MonitorState where
  status : Status
  statusLabel : String
  message : String
  checkCount : Nat
  inFlight : Bool
  lastCheckedAt : Option Timestamp
  nextCheckAt : Option Timestamp
  lastChangeAt : Timestamp
  lastError : Option String
  deriving DecidableEq, Repr

/-- The object literal handed to `updateState`: a field is `none` when the literal does
not name it.  A named nullable field carries `some none` for `null`.  No caller names
`lastChangeAt`, which `updateState` alone maintains. -/
structure StateUpdate where
  status : Option Status
  statusLabel : Option String
  message : Option String
  checkCount : Option Nat
  inFlight : Option Bool
  lastCheckedAt : Option (Option Timestamp)
  nextCheckAt : Option (Option Timestamp)
  lastError : Option (Option String)
  deriving DecidableEq, Repr

/-- The update that names no field. -/
def StateUpdate.empty : StateUpdate :=
  ⟨none, none, none, none, none, none, none, none⟩

/-- `CloudVsoshMonitor.updateState` (index.js 296-302); `now` is the clock reading that
`toIso()` would render. -/
def updateState (state : MonitorState) (now : Timestamp) (patch : StateUpdate) :
    MonitorState :=
  let previous := state.status
  let merged : MonitorState :=
    { status := patch.status.getD state.status
      statusLabel := patch.statusLabel.getD state.statusLabel
      message := patch.message.getD state.message
      checkCount := patch.checkCount.getD state.checkCount
      inFlight := patch.inFlight.getD state.inFlight
      lastCheckedAt := patch.lastCheckedAt.getD state.lastCheckedAt
      nextCheckAt := patch.nextCheckAt.getD state.nextCheckAt
      lastChangeAt := state.lastChangeAt
      lastError := patch.lastError.getD state.lastError }
  match patch.status with
  | some status => if status ≠ previous then { merged with lastChangeAt := now } else merged
  | none => merged

/-- The fields of a `CloudVsoshMonitor` (index.js 271-290).  The browser handles
`context` and `page` and the timer handle belong to external collaborators and are not
represented; `checkPromise` holds the identity of the pending promise. -/
structure CloudVsoshMonitor where
  config : Config
  checkPromise : Option Nat
  readyStreak : Nat
  state : MonitorState
  deriving DecidableEq, Repr

/-- The constructor (index.js 271-290), run at time `now`. -/
def CloudVsoshMonitor.create (cfg : Config) (now : Timestamp) : CloudVsoshMonitor where
  config := cfg
  checkPromise := none
  readyStreak := 0
  state :=
    { status := Status.INITIALIZING
      statusLabel := STATUS_LABELS Status.INITIALIZING
      message := "Запуск cloud-монитора"
      checkCount := 0
      inFlight := false
      lastCheckedAt := none
      nextCheckAt := none
      lastChangeAt := now
      lastError := none }

/-- The largest time value of a `Date`, 8.64e15 ms; `new Date(ms)` is invalid beyond. -/
def maxTimeValue : Nat := 8640000000000000

/-- `toIso` (index.js 38-40) applied to `new Date(ms)`: `toISOString` throws a RangeError
on an invalid date. -/
def toIso (ms : Nat) : Except String Timestamp :=
  if ms ≤ maxTimeValue then .ok ms else .error "Invalid time value"

/-- `nextCheckIso` (index.js 304-306): `toIso(new Date(from + this.config.checkIntervalMs))`. -/
def nextCheckIso (cfg : Config) (start : Timestamp) : Except String Timestamp :=
  toIso (start + cfg.checkIntervalMs)

/-- The argument `trigger` of `runCheck` and `performCheck`. -/
inductive Trigger where
  | manual
  | startup
  | interval
  deriving DecidableEq, Repr

/-- What the browser did during one check: one of the awaited calls of the `try` block
threw (with the description the `catch` block extracts), or the page was read. -/
inductive BrowserOutcome where
  | acquireFailed (message : String)
  | navigationFailed (message : String)
  | extractionFailed (message : String)
  | page (url text : JsString)
  deriving DecidableEq, Repr

/-- How a promise ends. -/
inductive Settlement where
  | fulfilled
  | rejected (reason : String)
  deriving DecidableEq, Repr

/-- The part of `performCheck` that runs before its first `await` (index.js 389-394). -/
def performCheckBegin (m : CloudVsoshMonitor) (trigger : Trigger) (startedAt : Timestamp) :
    CloudVsoshMonitor :=
  { m with
    state := updateState m.state startedAt
      { StateUpdate.empty with
        inFlight := some true
        message := some (if trigger = Trigger.manual then "Ручная проверка cloud..."
          else "Автоматическая cloud-проверка...") } }

/-- The `try` block of `performCheck` (index.js 396-417) once the browser has answered:
it throws the failure, or classifies the page and writes the state.  The two dates of
the object literal are rendered before `updateState` is called, and either rendering
may throw. -/
def performCheckTry (uc : UnicodeCase) (m : CloudVsoshMonitor) (startedAt now : Timestamp) :
    BrowserOutcome → Except String CloudVsoshMonitor
  | .acquireFailed message => .error message
  | .navigationFailed message => .error message
  | .extractionFailed message => .error message
  | .page url text =>
    let (evaluated, readyStreak) := evaluatePage uc m.config m.readyStreak text url
    match toIso startedAt with
    | .error thrown => .error thrown
    | .ok lastCheckedAt =>
      match nextCheckIso m.config startedAt with
      | .error thrown => .error thrown
      | .ok nextCheckAt =>
        .ok { m with
          readyStreak := readyStreak
          state := updateState m.state now
            { status := some evaluated.status
              statusLabel := some (STATUS_LABELS evaluated.status)
              message := some evaluated.message
              inFlight := some false
              checkCount := some (m.state.checkCount + 1)
              lastCheckedAt := some (some lastCheckedAt)
              nextCheckAt := some (some nextCheckAt)
              lastError := some (if evaluated.status = Status.ERROR then
                some evaluated.message else none) } }

/-- The rest of `performCheck` (index.js 396-431): the `try` block and the `catch`
block.  The second component is how the promise of `performCheck` settles: the `catch`
block resets the streak and renders the two dates again, so an exception raised there
leaves the state unwritten and rejects the promise. -/
def performCheckEnd (uc : UnicodeCase) (m : CloudVsoshMonitor) (startedAt now : Timestamp)
    (outcome : BrowserOutcome) : CloudVsoshMonitor × Settlement :=
  match performCheckTry uc m startedAt now outcome with
  | .ok m' => (m', Settlement.fulfilled)
  | .error message =>
    match toIso startedAt with
    | .error thrown => ({ m with readyStreak := 0 }, Settlement.rejected thrown)
    | .ok lastCheckedAt =>
      match nextCheckIso m.config startedAt with
      | .error thrown => ({ m with readyStreak := 0 }, Settlement.rejected thrown)
      | .ok nextCheckAt =>
        ({ m with
           readyStreak := 0
           state := updateState m.state now
             { status := some Status.ERROR
               statusLabel := some (STATUS_LABELS Status.ERROR)
               message := some "Ошибка cloud-проверки"
               inFlight := some false
               checkCount := some (m.state.checkCount + 1)
               lastCheckedAt := some (some lastCheckedAt)
               nextCheckAt := some (some nextCheckAt)
               lastError := some (some message) } }, Settlement.fulfilled)

/-- `CloudVsoshMonitor.performCheck` (index.js 388-432) run without interruption: started
at `startedAt`, the browser answering at `now`. -/
def performCheck (uc : UnicodeCase) (m : CloudVsoshMonitor) (trigger : Trigger)
    (startedAt now : Timestamp) (outcome : BrowserOutcome) : CloudVsoshMonitor × Settlement :=
  performCheckEnd uc (performCheckBegin m trigger startedAt) startedAt now outcome

/-! ## The event loop around the monitor

JavaScript runs each piece of synchronous code to completion.  A `performCheck`
activation is suspended exactly at its awaited browser calls, so the observable steps
are: `start` is called, somebody calls `runCheck`, or the browser answers a suspended
activation (then the rest of `performCheck`, the `finally` callback and the continuations
of the callers run before any other task).  `stop` writes none of the fields kept here;
a browser closed under a running check shows in that check as a failed `BrowserOutcome`. -/

/-- A `performCheck` activation suspended at the browser. -/
structure Execution where
  promise : Nat
  startedAt : Timestamp
  deriving DecidableEq, Repr

/-- The monitor together with the promises the event loop holds. -/
structure System where
  monitor : CloudVsoshMonitor
  nextPromise : Nat
  executing : List Execution
  waiting : List (Nat × Nat)
  settled : List (Nat × Nat × Settlement)
  deriving DecidableEq, Repr

/-- The process right after `new CloudVsoshMonitor(config)`. -/
def System.create (cfg : Config) (now : Timestamp) : System where
  monitor := CloudVsoshMonitor.create cfg now
  nextPromise := 0
  executing := []
  waiting := []
  settled := []

inductive Event where
  | start (caller : Nat) (now : Timestamp)
  | runCheck (caller : Nat) (trigger : Trigger) (now : Timestamp)
  | browserDone (promise : Nat) (now : Timestamp) (outcome : BrowserOutcome)
  deriving DecidableEq, Repr

/-- `CloudVsoshMonitor.runCheck` (index.js 376-386) called by `caller`: with a pending
`checkPromise` the caller is attached to it, otherwise `performCheck` starts and its
promise is stored. -/
def runCheck (s : System) (caller : Nat) (trigger : Trigger) (now : Timestamp) : System :=
  match s.monitor.checkPromise with
  | some p => { s with waiting := (caller, p) :: s.waiting }
  | none =>
    { monitor := { performCheckBegin s.monitor trigger now with
        checkPromise := some s.nextPromise }
      nextPromise := s.nextPromise + 1
      executing := ⟨s.nextPromise, now⟩ :: s.executing
      waiting := (caller, s.nextPromise) :: s.waiting
      settled := s.settled }

/-- The browser answers the activation behind `promise`: `performCheck` finishes, the
`finally` callback clears `checkPromise` (index.js 381-383) and every caller attached to
the promise receives its settlement. -/
def browserDone (uc : UnicodeCase) (s : System) (promise : Nat) (now : Timestamp)
    (outcome : BrowserOutcome) : System :=
  match s.executing.find? (fun e => e.promise == promise) with
  | none => s
  | some e =>
    let done := performCheckEnd uc s.monitor e.startedAt now outcome
    { monitor := { done.1 with checkPromise := none }
      nextPromise := s.nextPromise
      executing := s.executing.filter (fun x => x.promise != promise)
      waiting := s.waiting.filter (fun w => w.2 != promise)
      settled := (s.waiting.filter (fun w => w.2 == promise)).map
        (fun w => (w.1, promise, done.2)) ++ s.settled }

/-- `CloudVsoshMonitor.start` (index.js 434-450) up to its first suspension: manual mode
writes the state and returns; otherwise the startup check is requested (the interval
timer armed afterwards only produces further `runCheck` events). -/
def start (s : System) (caller : Nat) (now : Timestamp) : System :=
  if !s.monitor.config.autoChecksEnabled then
    { s with
      monitor := { s.monitor with
        state := updateState s.monitor.state now
          { StateUpdate.empty with
            status := some Status.INITIALIZING
            statusLabel := some "Ручной режим"
            message := some "Проверка запускается только по кнопке (watch/check)"
            inFlight := some false
            nextCheckAt := some none } } }
  else runCheck s caller Trigger.startup now

def step (uc : UnicodeCase) (s : System) : Event → System
  | .start caller now => start s caller now
  | .runCheck caller trigger now => runCheck s caller trigger now
  | .browserDone promise now outcome => browserDone uc s promise now outcome

def run (uc : UnicodeCase) (s : System) (events : List Event) : System :=
  events.foldl (step uc) s

/-! ## The HTTP handler -/

/-- A parsed request: the path and the first value of the query parameters the handler
reads (`searchParams.get` gives `null`, here `none`, for an absent parameter). -/
structure Request where
  pathname : JsString
  token : Option JsString
  format : Option JsString
  check : Option JsString
  deriving DecidableEq, Repr

/-- What is sent: fixed text, the short status text, JSON with the state (and
`resultsReady` on the watch routes), or the HTML card. -/
inductive Body where
  | text (content : String)
  | shortStatus (state : MonitorState)
  | json (resultsReady : Option Bool) (state : MonitorState)
  | html (state : MonitorState)
  deriving DecidableEq, Repr

structure Response where
  statusCode : Nat
  body : Body
  deriving DecidableEq, Repr

/-- Outcome of serving one request: the response, the monitor afterwards and how many
times the handler called `monitor.runCheck`. -/
structure Handled where
  response : Response
  monitor : CloudVsoshMonitor
  checksRequested : Nat
  deriving DecidableEq, Repr

/-- `tokenMatches` (index.js 492-495). -/
def tokenMatches (cfg : Config) (req : Request) : Bool :=
  let incoming := trim (req.token.getD [])
  !incoming.isEmpty && incoming == cfg.watchToken

/-- The answer of `/watch/status` and `/watch/check` (index.js 537-549, 554-566). -/
def watchStatusResponse (req : Request) (state : MonitorState) : Response :=
  if req.format == some (utf16 "json") then
    ⟨200, Body.json (some (state.status.value == "ready")) state⟩
  else ⟨200, Body.shortStatus state⟩

def notFound : Response :=
  ⟨404, Body.text
    "Not found. Use /health, /status, /check, /watch/status, /watch/check, /watch/view\n"⟩

/-- What the handler does once `await monitor.runCheck("manual")` has settled: it goes on
to `respond` with the state, or, the promise rejected, control passes to the `catch` of
the handler (index.js 585-588), which answers 500 with the description of the error. -/
def afterCheck (checked : CloudVsoshMonitor × Settlement) (respond : MonitorState → Response) :
    Handled :=
  match checked.2 with
  | .fulfilled => ⟨respond checked.1.state, checked.1, 1⟩
  | .rejected reason => ⟨⟨500, Body.text ("error: " ++ reason ++ "\n")⟩, checked.1, 1⟩

/-- The request handler (index.js 497-589) on a parsed request.  `awaitCheck` is the
effect of `await monitor.runCheck("manual")`: the monitor afterwards and how the promise
settled.  The configured token comes from the environment and is well-formed UTF-16, so
`encodeURIComponent` in `buildWatchHtml` does not throw. -/
def handleRequest (cfg : Config)
    (awaitCheck : CloudVsoshMonitor → CloudVsoshMonitor × Settlement)
    (monitor : CloudVsoshMonitor) (req : Request) : Handled :=
  if req.pathname == utf16 "/health" then
    ⟨⟨200, Body.text "ok\n"⟩, monitor, 0⟩
  else if req.pathname == utf16 "/status" then
    ⟨⟨200, Body.json none monitor.state⟩, monitor, 0⟩
  else if req.pathname == utf16 "/check" then
    afterCheck (awaitCheck monitor) (fun state => ⟨200, Body.json none state⟩)
  else if startsWith req.pathname (utf16 "/watch/") then
    if cfg.watchToken.isEmpty then
      ⟨⟨500, Body.text "watch token is not configured\n"⟩, monitor, 0⟩
    else if !tokenMatches cfg req then
      ⟨⟨401, Body.text "unauthorized\n"⟩, monitor, 0⟩
    else if req.pathname == utf16 "/watch/status" then
      ⟨watchStatusResponse req monitor.state, monitor, 0⟩
    else if req.pathname == utf16 "/watch/check" then
      afterCheck (awaitCheck monitor) (watchStatusResponse req)
    else if req.pathname == utf16 "/watch/view" then
      if req.check == some (utf16 "1") then
        afterCheck (awaitCheck monitor) (fun state => ⟨200, Body.html state⟩)
      else ⟨⟨200, Body.html monitor.state⟩, monitor, 0⟩
    else ⟨notFound, monitor, 0⟩
  else ⟨notFound, monitor, 0⟩

/-! ## Auxiliary definitions used to state the properties -/

/-- A page that matches no challenge pattern, no authorization marker and no pending
text: the three tests of `evaluatePage` all fail. -/
def cleanPage (uc : UnicodeCase) (cfg : Config) (text url : JsString) : Bool :=
  !matchesChallenge uc (normalizeText text) &&
  !needsAuthorization uc (normalizeText text) (uc.toLowerCase url) &&
  !hasPending uc cfg (uc.toLowerCase (normalizeText text))

/-- Consecutive `evaluatePage` calls on a sequence of `(text, url)` pages, `readyStreak`
carried from one call to the next. -/
def evaluatePages (uc : UnicodeCase) (cfg : Config) :
    Nat → List (JsString × JsString) → List Evaluated × Nat
  | readyStreak, [] => ([], readyStreak)
  | readyStreak, page :: rest =>
    let first := evaluatePage uc cfg readyStreak page.1 page.2
    let others := evaluatePages uc cfg first.2 rest
    (first.1 :: others.1, others.2)

/-- The event of `caller` calling `runCheck(trigger)` at time `now`. -/
def callEvent (call : Nat × Trigger × Timestamp) : Event :=
  Event.runCheck call.1 call.2.1 call.2.2

/-- The single-flight invariant: either no promise is stored and nothing executes, or the
stored promise belongs to the one executing activation. -/
def SingleFlight (s : System) : Prop :=
  (s.monitor.checkPromise = none ∧ s.executing = []) ∨
  ∃ e : Execution, s.monitor.checkPromise = some e.promise ∧ s.executing = [e]

/-! ## Properties of the classifier -/

theorem includes_iff_segment (haystack needle : JsString) :
    includes haystack needle = true ↔ needle <:+: haystack := by
  unfold includes
  rw [List.any_eq_true, List.infix_iff_prefix_suffix]
  constructor
  · rintro ⟨t, ht, hp⟩
    exact ⟨t, List.isPrefixOf_iff_prefix.mp hp, (List.mem_tails t haystack).mp ht⟩
  · rintro ⟨t, hp, ht⟩
    exact ⟨t, (List.mem_tails t haystack).mpr ht, List.isPrefixOf_iff_prefix.mpr hp⟩

theorem hasPending_of_segment (uc : UnicodeCase) (cfg : Config) (lowerText value : JsString)
    (hmem : value ∈ cfg.pendingTexts) (hne : uc.toLowerCase (trim value) ≠ [])
    (hin : uc.toLowerCase (trim value) <:+: lowerText) :
    hasPending uc cfg lowerText = true := by
  unfold hasPending
  rw [List.any_eq_true]
  refine ⟨value, hmem, ?_⟩
  have h1 : (uc.toLowerCase (trim value)).isEmpty = false := by
    cases h : uc.toLowerCase (trim value) with
    | nil => exact absurd h hne
    | cons a l => rfl
  simp [h1, (includes_iff_segment _ _).mpr hin]

/-- Claim C4: challenge classification comes first: whenever the normalized text matches a
challenge pattern, `evaluatePage` returns VERIFYING with the anti-bot message and the
streak it was given, whatever the URL, the configuration and the rest of the text. -/
theorem evaluatePage_challenge_first (uc : UnicodeCase) (cfg : Config) (readyStreak : Nat)
    (text url : JsString)
    (h : challengePatterns.any (fun pattern => pattern.test uc (normalizeText text)) = true) :
    evaluatePage uc cfg readyStreak text url =
      (⟨Status.VERIFYING, "Сработала anti-bot проверка браузера"⟩, readyStreak) := by
  have h' : matchesChallenge uc (normalizeText text) = true := h
  simp [evaluatePage, h']

/-- Witness of C4: a text with a challenge phrase, an authorization phrase and the
pending text, at a login URL, is classified as a challenge and the streak 3 is kept. -/
theorem evaluatePage_challenge_first_witness :
    hasPending basicCase (defaultConfig [])
        (basicCase.toLowerCase (normalizeText
          (utf16 "Please enable JavaScript. Войти. Ожидание результатов"))) = true ∧
      needsAuthorization basicCase
        (normalizeText (utf16 "Please enable JavaScript. Войти. Ожидание результатов"))
        (basicCase.toLowerCase (utf16 "https://my.sirius.online/login")) = true ∧
      evaluatePage basicCase (defaultConfig []) 3
        (utf16 "Please enable JavaScript. Войти. Ожидание результатов")
        (utf16 "https://my.sirius.online/login") =
      (⟨Status.VERIFYING, "Сработала anti-bot проверка браузера"⟩, 3) :=
  ⟨by decide, by decide,
    evaluatePage_challenge_first basicCase (defaultConfig []) 3
      (utf16 "Please enable JavaScript. Войти. Ожидание результатов")
      (utf16 "https://my.sirius.online/login") (by decide)⟩

/-- Counterexample to C1 as stated: the text contains the configured pending text, yet
the authorization pattern `войти` wins and the streak 3 is not reset. -/
theorem evaluatePage_pending_counterexample :
    (∃ value ∈ (defaultConfig []).pendingTexts,
        basicCase.toLowerCase value <:+:
          basicCase.toLowerCase (utf16 "Ожидание результатов. Войти")) ∧
      evaluatePage basicCase (defaultConfig []) 3 (utf16 "Ожидание результатов. Войти")
        (defaultConfig []).targetUrl =
      (⟨Status.AUTH_REQUIRED, "На cloud-сервере нужна авторизация в Sirius"⟩, 3) := by
  refine ⟨⟨utf16 "Ожидание результатов", by decide, ?_⟩, by decide⟩
  rw [← includes_iff_segment]
  decide

/-- Claim C1, amended: when the normalized text matches no challenge pattern and the page
carries no authorization marker, a text whose normalized lower-case form contains the
trimmed lower-case form (not empty) of a configured pending text is classified PENDING and
the streak becomes 0, whatever it was; and the text "Ожидание результатов" at the default
target URL is PENDING under the default configuration. -/
theorem evaluatePage_pending (uc : UnicodeCase) (cfg : Config) (readyStreak : Nat)
    (text url value : JsString)
    (hchallenge : matchesChallenge uc (normalizeText text) = false)
    (hauth : needsAuthorization uc (normalizeText text) (uc.toLowerCase url) = false)
    (hmem : value ∈ cfg.pendingTexts)
    (hne : uc.toLowerCase (trim value) ≠ [])
    (hin : uc.toLowerCase (trim value) <:+: uc.toLowerCase (normalizeText text)) :
    evaluatePage uc cfg readyStreak text url = (⟨Status.PENDING, "Результатов пока нет"⟩, 0) ∧
    ∀ (token : JsString) (prior : Nat),
      evaluatePage basicCase (defaultConfig token) prior (utf16 "Ожидание результатов")
        (defaultConfig token).targetUrl = (⟨Status.PENDING, "Результатов пока нет"⟩, 0) := by
  constructor
  · have hp := hasPending_of_segment uc cfg _ value hmem hne hin
    simp [evaluatePage, hchallenge, hauth, hp]
  · intro token prior
    have h1 : matchesChallenge basicCase (normalizeText (utf16 "Ожидание результатов")) = false := by
      decide
    have h2 : needsAuthorization basicCase (normalizeText (utf16 "Ожидание результатов"))
        (basicCase.toLowerCase (defaultConfig token).targetUrl) = false := by
      change needsAuthorization basicCase (normalizeText (utf16 "Ожидание результатов"))
        (basicCase.toLowerCase (defaultConfig []).targetUrl) = false
      decide
    have h3 : hasPending basicCase (defaultConfig token)
        (basicCase.toLowerCase (normalizeText (utf16 "Ожидание результатов"))) = true := by
      change hasPending basicCase (defaultConfig [])
        (basicCase.toLowerCase (normalizeText (utf16 "Ожидание результатов"))) = true
      decide
    simp [evaluatePage, h1, h2, h3]

/-- Witness of C1: the upper-case pending text broken over two lines, streak 7. -/
theorem evaluatePage_pending_witness :
    evaluatePage basicCase (defaultConfig []) 7 (utf16 "ОЖИДАНИЕ \n  РЕЗУЛЬТАТОВ ")
        (defaultConfig []).targetUrl = (⟨Status.PENDING, "Результатов пока нет"⟩, 0) :=
  (evaluatePage_pending basicCase (defaultConfig []) 7 (utf16 "ОЖИДАНИЕ \n  РЕЗУЛЬТАТОВ ")
    (defaultConfig []).targetUrl (utf16 "Ожидание результатов")
    (by decide) (by decide) (by decide) (by decide)
    ((includes_iff_segment _ _).mp (by decide))).1

/-- Counterexample to C3 as stated: "Войдите в систему" matches none of the authorization
patterns (`войти` is not a substring of `войдите`), so at the target URL with streak 0 the
page goes down the confirmation branch: VERIFYING, streak 1. -/
theorem evaluatePage_auth_counterexample :
    evaluatePage basicCase (defaultConfig []) 0 (utf16 "Войдите в систему")
        (defaultConfig []).targetUrl =
      (⟨Status.VERIFYING, "Подтверждение публикации (1/2)"⟩, 1) := by
  decide

/-- Claim C3, amended: for every prior streak, a text whose normalized form matches one of
the authorization patterns `авторизац`, `войти`, `sign in`, `log in`, `login` and no
challenge pattern is classified AUTH_REQUIRED with the streak unchanged; in particular so
is the text "Войти в систему". -/
theorem evaluatePage_auth_text (uc : UnicodeCase) (cfg : Config) (readyStreak : Nat)
    (text url : JsString)
    (hchallenge : matchesChallenge uc (normalizeText text) = false)
    (hauth : authTextPatterns.any (fun pattern => pattern.test uc (normalizeText text)) = true) :
    evaluatePage uc cfg readyStreak text url =
      (⟨Status.AUTH_REQUIRED, "На cloud-сервере нужна авторизация в Sirius"⟩, readyStreak) ∧
    ∀ (cfg' : Config) (url' : JsString) (prior : Nat),
      evaluatePage basicCase cfg' prior (utf16 "Войти в систему") url' =
        (⟨Status.AUTH_REQUIRED, "На cloud-сервере нужна авторизация в Sirius"⟩, prior) := by
  constructor
  · simp [evaluatePage, hchallenge, needsAuthorization, hauth]
  · intro cfg' url' prior
    have h1 : matchesChallenge basicCase (normalizeText (utf16 "Войти в систему")) = false := by
      decide
    have h2 : authTextPatterns.any
        (fun pattern => pattern.test basicCase (normalizeText (utf16 "Войти в систему"))) = true := by
      decide
    simp [evaluatePage, h1, needsAuthorization, h2]

/-- Witness of C3: an English sign-in page, streak 4. -/
theorem evaluatePage_auth_text_witness :
    evaluatePage basicCase (defaultConfig []) 4 (utf16 "Please  Sign In to continue")
        (defaultConfig []).targetUrl =
      (⟨Status.AUTH_REQUIRED, "На cloud-сервере нужна авторизация в Sirius"⟩, 4) :=
  (evaluatePage_auth_text basicCase (defaultConfig []) 4 (utf16 "Please  Sign In to continue")
    (defaultConfig []).targetUrl (by decide) (by decide)).1

theorem evaluatePage_clean (uc : UnicodeCase) (cfg : Config) (readyStreak : Nat)
    (text url : JsString) (hclean : cleanPage uc cfg text url = true) :
    evaluatePage uc cfg readyStreak text url =
      (if readyStreak + 1 < cfg.readyConfirmChecks then
          ⟨Status.VERIFYING, verifyingMessage (readyStreak + 1) cfg.readyConfirmChecks⟩
        else ⟨Status.READY, "Факт публикации результатов подтвержден"⟩,
       readyStreak + 1) := by
  simp only [cleanPage, Bool.and_eq_true, Bool.not_eq_true'] at hclean
  obtain ⟨⟨h1, h2⟩, h3⟩ := hclean
  by_cases hlt : readyStreak + 1 < cfg.readyConfirmChecks <;>
    simp [evaluatePage, h1, h2, h3, hlt]

theorem evaluatePages_clean (uc : UnicodeCase) (cfg : Config)
    (pages : List (JsString × JsString)) :
    ∀ readyStreak : Nat, (∀ page ∈ pages, cleanPage uc cfg page.1 page.2 = true) →
      evaluatePages uc cfg readyStreak pages =
        ((List.range pages.length).map (fun i =>
            if readyStreak + i + 1 < cfg.readyConfirmChecks then
              (⟨Status.VERIFYING,
                verifyingMessage (readyStreak + i + 1) cfg.readyConfirmChecks⟩ : Evaluated)
            else ⟨Status.READY, "Факт публикации результатов подтвержден"⟩),
         readyStreak + pages.length) := by
  induction pages with
  | nil => intro readyStreak _; rfl
  | cons page rest ih =>
    intro readyStreak hclean
    have hfirst := evaluatePage_clean uc cfg readyStreak page.1 page.2
      (hclean page (List.mem_cons_self _ _))
    have hrest := ih (readyStreak + 1) (fun q hq => hclean q (List.mem_cons_of_mem _ hq))
    simp only [evaluatePages, hfirst, hrest, List.length_cons, List.range_succ_eq_map,
      List.map_cons, List.map_map]
    refine Prod.ext ?_ ?_
    · simp only [Nat.add_zero, List.cons.injEq, true_and]
      apply List.map_congr_left
      intro i _
      simp only [Function.comp, Nat.succ_eq_add_one]
      rw [show readyStreak + (i + 1) + 1 = readyStreak + 1 + i + 1 by omega]
    · simp only
      omega

/-- Claim C2: on pages that match no pending, authorization or challenge pattern, every
`evaluatePage` call adds exactly 1 to the streak; the call that brings the streak to `n`
returns VERIFYING (with the progress message `n/readyConfirmChecks`) while
`n < readyConfirmChecks` and READY from `n = readyConfirmChecks` on, the streak still
growing.  With `readyConfirmChecks = 2` and streak 0 the first clean call returns
VERIFYING "(1/2)" and the second READY. -/
theorem evaluatePage_confirmation_streak (uc : UnicodeCase) (cfg : Config) (readyStreak : Nat)
    (pages : List (JsString × JsString))
    (hclean : ∀ page ∈ pages, cleanPage uc cfg page.1 page.2 = true) :
    (evaluatePages uc cfg readyStreak pages).2 = readyStreak + pages.length ∧
    (evaluatePages uc cfg readyStreak pages).1 =
      (List.range pages.length).map (fun i =>
        if readyStreak + i + 1 < cfg.readyConfirmChecks then
          (⟨Status.VERIFYING,
            verifyingMessage (readyStreak + i + 1) cfg.readyConfirmChecks⟩ : Evaluated)
        else ⟨Status.READY, "Факт публикации результатов подтвержден"⟩) ∧
    (∀ page ∈ pages,
      (evaluatePage uc cfg readyStreak page.1 page.2).2 = readyStreak + 1 ∧
      (readyStreak + 1 < cfg.readyConfirmChecks →
        (evaluatePage uc cfg readyStreak page.1 page.2).1.status = Status.VERIFYING) ∧
      (readyStreak + 1 = cfg.readyConfirmChecks →
        (evaluatePage uc cfg readyStreak page.1 page.2).1.status = Status.READY) ∧
      (cfg.readyConfirmChecks < readyStreak + 1 →
        (evaluatePage uc cfg readyStreak page.1 page.2).1.status = Status.READY)) ∧
    (cfg.readyConfirmChecks = 2 → readyStreak = 0 → pages.length = 2 →
      evaluatePages uc cfg readyStreak pages =
        ([⟨Status.VERIFYING, "Подтверждение публикации (1/2)"⟩,
          ⟨Status.READY, "Факт публикации результатов подтвержден"⟩], 2)) := by
  have hall := evaluatePages_clean uc cfg pages readyStreak hclean
  refine ⟨by rw [hall], by rw [hall], ?_, ?_⟩
  · intro page hpage
    rw [evaluatePage_clean uc cfg readyStreak page.1 page.2 (hclean page hpage)]
    refine ⟨rfl, ?_, ?_, ?_⟩
    · intro h; simp [h]
    · intro h; simp [← h]
    · intro h
      have : ¬ readyStreak + 1 < cfg.readyConfirmChecks := by omega
      simp [this]
  · intro hT h0 hlen
    rw [hall, hT, h0, hlen]
    decide

/-- Witness of C2: three consecutive clean pages under the default configuration
(threshold 2), starting from streak 0: VERIFYING 1/2, READY, READY, streak 3. -/
theorem evaluatePage_confirmation_streak_witness :
    evaluatePages basicCase (defaultConfig []) 0
        [(utf16 "Итоги", (defaultConfig []).targetUrl),
         (utf16 "Итоги", (defaultConfig []).targetUrl),
         (utf16 "Итоги", (defaultConfig []).targetUrl)] =
      ([⟨Status.VERIFYING, "Подтверждение публикации (1/2)"⟩,
        ⟨Status.READY, "Факт публикации результатов подтвержден"⟩,
        ⟨Status.READY, "Факт публикации результатов подтвержден"⟩], 3) := by
  have h := evaluatePage_confirmation_streak basicCase (defaultConfig []) 0
    [(utf16 "Итоги", (defaultConfig []).targetUrl),
     (utf16 "Итоги", (defaultConfig []).targetUrl),
     (utf16 "Итоги", (defaultConfig []).targetUrl)] (by decide)
  exact Prod.ext (h.2.1.trans (by decide)) h.1

/-! ## Properties of the monitor state -/

/-- Claim C10: `updateState` sets `lastChangeAt` to the current time exactly when the
update carries a status different from the previous one; without a status, or with the
same status, `lastChangeAt` keeps its value; and every field the update does not name is
left as it was. -/
theorem updateState_lastChangeAt (state : MonitorState) (now : Timestamp)
    (patch : StateUpdate) :
    (∀ status, patch.status = some status → status ≠ state.status →
      (updateState state now patch).lastChangeAt = now) ∧
    (patch.status = none ∨ patch.status = some state.status →
      (updateState state now patch).lastChangeAt = state.lastChangeAt) ∧
    (patch.status = none → (updateState state now patch).status = state.status) ∧
    (patch.statusLabel = none →
      (updateState state now patch).statusLabel = state.statusLabel) ∧
    (patch.message = none → (updateState state now patch).message = state.message) ∧
    (patch.checkCount = none →
      (updateState state now patch).checkCount = state.checkCount) ∧
    (patch.inFlight = none → (updateState state now patch).inFlight = state.inFlight) ∧
    (patch.lastCheckedAt = none →
      (updateState state now patch).lastCheckedAt = state.lastCheckedAt) ∧
    (patch.nextCheckAt = none →
      (updateState state now patch).nextCheckAt = state.nextCheckAt) ∧
    (patch.lastError = none → (updateState state now patch).lastError = state.lastError) := by
  refine ⟨?_, ?_, ?_, ?_, ?_, ?_, ?_, ?_, ?_, ?_⟩
  · intro status hs hne
    simp [updateState, hs, hne]
  · rintro (hs | hs) <;> simp [updateState, hs]
  all_goals
    intro h
    cases hs : patch.status with
    | none => simp [updateState, hs, h]
    | some status =>
      by_cases hne : status = state.status <;> simp_all [updateState]

/-- Witness of C10: a status change stamps `lastChangeAt`, and an update without a
status leaves it alone. -/
theorem updateState_lastChangeAt_witness :
    (updateState (CloudVsoshMonitor.create (defaultConfig []) 5).state 9
        { StateUpdate.empty with status := some Status.PENDING }).lastChangeAt = 9 ∧
      (updateState (CloudVsoshMonitor.create (defaultConfig []) 5).state 9
        { StateUpdate.empty with inFlight := some true }).lastChangeAt = 5 :=
  ⟨(updateState_lastChangeAt (CloudVsoshMonitor.create (defaultConfig []) 5).state 9
      { StateUpdate.empty with status := some Status.PENDING }).1 Status.PENDING rfl
      (by decide),
   (updateState_lastChangeAt (CloudVsoshMonitor.create (defaultConfig []) 5).state 9
      { StateUpdate.empty with inFlight := some true }).2.1 (Or.inl rfl)⟩

theorem toIso_in_range (ms : Nat) (h : ms ≤ maxTimeValue) : toIso ms = Except.ok ms := by
  simp [toIso, h]

theorem toIso_out_of_range (ms : Nat) (h : maxTimeValue < ms) :
    toIso ms = Except.error "Invalid time value" := by
  have : ¬ ms ≤ maxTimeValue := by omega
  simp [toIso, this]

theorem performCheckEnd_page (uc : UnicodeCase) (m : CloudVsoshMonitor)
    (startedAt now : Timestamp) (url text : JsString)
    (hrange : startedAt + m.config.checkIntervalMs ≤ maxTimeValue) :
    performCheckEnd uc m startedAt now (BrowserOutcome.page url text) =
      ({ m with
         readyStreak := (evaluatePage uc m.config m.readyStreak text url).2
         state := updateState m.state now
           { status := some (evaluatePage uc m.config m.readyStreak text url).1.status
             statusLabel :=
               some (STATUS_LABELS (evaluatePage uc m.config m.readyStreak text url).1.status)
             message := some (evaluatePage uc m.config m.readyStreak text url).1.message
             inFlight := some false
             checkCount := some (m.state.checkCount + 1)
             lastCheckedAt := some (some startedAt)
             nextCheckAt := some (some (startedAt + m.config.checkIntervalMs))
             lastError :=
               some (if (evaluatePage uc m.config m.readyStreak text url).1.status =
                   Status.ERROR then
                 some (evaluatePage uc m.config m.readyStreak text url).1.message
               else none) } }, Settlement.fulfilled) := by
  have h1 : toIso startedAt = Except.ok startedAt :=
    toIso_in_range _ (Nat.le_trans (Nat.le_add_right _ _) hrange)
  have h2 : nextCheckIso m.config startedAt =
      Except.ok (startedAt + m.config.checkIntervalMs) := toIso_in_range _ hrange
  simp only [performCheckEnd, performCheckTry, h1, h2]

theorem performCheckEnd_failed (uc : UnicodeCase) (m : CloudVsoshMonitor)
    (startedAt now : Timestamp) (message : String) (outcome : BrowserOutcome)
    (hfail : outcome = BrowserOutcome.acquireFailed message ∨
      outcome = BrowserOutcome.navigationFailed message ∨
      outcome = BrowserOutcome.extractionFailed message)
    (hrange : startedAt + m.config.checkIntervalMs ≤ maxTimeValue) :
    performCheckEnd uc m startedAt now outcome =
      ({ m with
         readyStreak := 0
         state := updateState m.state now
           { status := some Status.ERROR
             statusLabel := some (STATUS_LABELS Status.ERROR)
             message := some "Ошибка cloud-проверки"
             inFlight := some false
             checkCount := some (m.state.checkCount + 1)
             lastCheckedAt := some (some startedAt)
             nextCheckAt := some (some (startedAt + m.config.checkIntervalMs))
             lastError := some (some message) } }, Settlement.fulfilled) := by
  have h1 : toIso startedAt = Except.ok startedAt :=
    toIso_in_range _ (Nat.le_trans (Nat.le_add_right _ _) hrange)
  have h2 : nextCheckIso m.config startedAt =
      Except.ok (startedAt + m.config.checkIntervalMs) := toIso_in_range _ hrange
  rcases hfail with h | h | h <;> subst h <;>
    simp only [performCheckEnd, performCheckTry, h1, h2]

theorem performCheckEnd_out_of_range (uc : UnicodeCase) (m : CloudVsoshMonitor)
    (startedAt now : Timestamp) (outcome : BrowserOutcome)
    (hrange : maxTimeValue < startedAt + m.config.checkIntervalMs) :
    performCheckEnd uc m startedAt now outcome =
      ({ m with readyStreak := 0 }, Settlement.rejected "Invalid time value") := by
  have h2 : nextCheckIso m.config startedAt = Except.error "Invalid time value" :=
    toIso_out_of_range _ hrange
  by_cases h : startedAt ≤ maxTimeValue
  · have h1 : toIso startedAt = Except.ok startedAt := toIso_in_range _ h
    cases outcome <;> simp only [performCheckEnd, performCheckTry, h1, h2]
  · have h1 : toIso startedAt = Except.error "Invalid time value" :=
      toIso_out_of_range _ (Nat.lt_of_not_le h)
    cases outcome <;> simp only [performCheckEnd, performCheckTry, h1]

/-- Counterexample to C7 as stated: with `checkIntervalMs = 9e15` (a finite number not
below 5000, which the configuration accepts) the page is read without failure, but
rendering `nextCheckAt` throws in the `try` block and again in the `catch` block: the
promise is rejected and no state is written (`checkCount` still 0, `inFlight` still
true, status not the classifier's PENDING). -/
theorem performCheck_page_state_counterexample :
    (evaluatePage basicCase { defaultConfig [] with checkIntervalMs := 9000000000000000 } 0
        (utf16 "Ожидание результатов") (defaultConfig []).targetUrl).1.status =
      Status.PENDING ∧
    (performCheck basicCase
        (CloudVsoshMonitor.create
          { defaultConfig [] with checkIntervalMs := 9000000000000000 } 0)
        Trigger.manual 1000 2000
        (BrowserOutcome.page (defaultConfig []).targetUrl (utf16 "Ожидание результатов"))).2 =
      Settlement.rejected "Invalid time value" ∧
    (performCheck basicCase
        (CloudVsoshMonitor.create
          { defaultConfig [] with checkIntervalMs := 9000000000000000 } 0)
        Trigger.manual 1000 2000
        (BrowserOutcome.page (defaultConfig []).targetUrl
          (utf16 "Ожидание результатов"))).1.state.status = Status.INITIALIZING ∧
    (performCheck basicCase
        (CloudVsoshMonitor.create
          { defaultConfig [] with checkIntervalMs := 9000000000000000 } 0)
        Trigger.manual 1000 2000
        (BrowserOutcome.page (defaultConfig []).targetUrl
          (utf16 "Ожидание результатов"))).1.state.checkCount = 0 ∧
    (performCheck basicCase
        (CloudVsoshMonitor.create
          { defaultConfig [] with checkIntervalMs := 9000000000000000 } 0)
        Trigger.manual 1000 2000
        (BrowserOutcome.page (defaultConfig []).targetUrl
          (utf16 "Ожидание результатов"))).1.state.inFlight = true := by
  decide

/-- Claim C7, amended: when the start time plus `checkIntervalMs` does not exceed the
largest time value of a `Date` (8.64e15 ms), a check that read the page without failure
completes (its promise is fulfilled) and the state carries the status and message returned
by `evaluatePage`, the label looked up from that status, `inFlight = false`, `checkCount`
one more than before, and `lastError` equal to the message when the status is ERROR and
`null` otherwise. -/
theorem performCheck_page_state (uc : UnicodeCase) (m : CloudVsoshMonitor) (trigger : Trigger)
    (startedAt now : Timestamp) (url text : JsString)
    (hrange : startedAt + m.config.checkIntervalMs ≤ maxTimeValue) :
    (performCheck uc m trigger startedAt now (BrowserOutcome.page url text)).2 =
      Settlement.fulfilled ∧
    (performCheck uc m trigger startedAt now (BrowserOutcome.page url text)).1.state.status =
      (evaluatePage uc m.config m.readyStreak text url).1.status ∧
    (performCheck uc m trigger startedAt now (BrowserOutcome.page url text)).1.state.message =
      (evaluatePage uc m.config m.readyStreak text url).1.message ∧
    (performCheck uc m trigger startedAt now (BrowserOutcome.page url text)).1.state.statusLabel =
      STATUS_LABELS (evaluatePage uc m.config m.readyStreak text url).1.status ∧
    (performCheck uc m trigger startedAt now (BrowserOutcome.page url text)).1.state.inFlight =
      false ∧
    (performCheck uc m trigger startedAt now (BrowserOutcome.page url text)).1.state.checkCount =
      m.state.checkCount + 1 ∧
    (performCheck uc m trigger startedAt now (BrowserOutcome.page url text)).1.state.lastError =
      (if (evaluatePage uc m.config m.readyStreak text url).1.status = Status.ERROR then
        some (evaluatePage uc m.config m.readyStreak text url).1.message else none) ∧
    (performCheck uc m trigger startedAt now (BrowserOutcome.page url text)).1.readyStreak =
      (evaluatePage uc m.config m.readyStreak text url).2 := by
  have h := performCheckEnd_page uc (performCheckBegin m trigger startedAt) startedAt now
    url text hrange
  unfold performCheck
  rw [h]
  refine ⟨rfl, ?_, ?_, ?_, ?_, ?_, ?_, ?_⟩ <;>
    simp [performCheckBegin, updateState, StateUpdate.empty] <;>
    split <;> rfl

/-- Witness of C7: the pending page read by a manual check started at 1000 under the
default configuration (interval 30000). -/
theorem performCheck_page_state_witness :
    (performCheck basicCase (CloudVsoshMonitor.create (defaultConfig []) 0) Trigger.manual
        1000 2000
        (BrowserOutcome.page (defaultConfig []).targetUrl
          (utf16 "Ожидание результатов"))).1.state.checkCount = 0 + 1 :=
  (performCheck_page_state basicCase (CloudVsoshMonitor.create (defaultConfig []) 0)
    Trigger.manual 1000 2000 (defaultConfig []).targetUrl (utf16 "Ожидание результатов")
    (by decide)).2.2.2.2.2.1

/-- Counterexample to C6 as stated: with `checkIntervalMs = 9e15` a navigation timeout
reaches the `catch` block, which resets the streak and then throws while rendering
`nextCheckAt`: the promise is rejected (the caller of `runCheck` sees a failure), the
status is not ERROR, `lastError` is still `null`, `checkCount` is still 0 and `inFlight`
is still true. -/
theorem performCheck_failure_counterexample :
    (performCheck basicCase
        { CloudVsoshMonitor.create
            { defaultConfig [] with checkIntervalMs := 9000000000000000 } 0 with
          readyStreak := 1 }
        Trigger.manual 1000 26000
        (BrowserOutcome.navigationFailed "page.goto: Timeout 25000ms exceeded.")) =
      ({ config := { defaultConfig [] with checkIntervalMs := 9000000000000000 }
         checkPromise := none
         readyStreak := 0
         state :=
           { status := Status.INITIALIZING
             statusLabel := "Инициализация"
             message := "Ручная проверка cloud..."
             checkCount := 0
             inFlight := true
             lastCheckedAt := none
             nextCheckAt := none
             lastChangeAt := 0
             lastError := none } },
       Settlement.rejected "Invalid time value") := by
  decide

/-- Claim C6, amended: when the start time plus `checkIntervalMs` does not exceed the
largest time value of a `Date` (8.64e15 ms), a check whose browser acquisition, navigation
or text extraction fails with description `message` ends with status ERROR,
`lastError = message`, `checkCount` one more than before, `inFlight = false`,
`nextCheckAt` recomputed from the start time and the streak reset to 0; the promise of
`performCheck` is fulfilled, not rejected. -/
theorem performCheck_failure (uc : UnicodeCase) (m : CloudVsoshMonitor) (trigger : Trigger)
    (startedAt now : Timestamp) (message : String) (outcome : BrowserOutcome)
    (hfail : outcome = BrowserOutcome.acquireFailed message ∨
      outcome = BrowserOutcome.navigationFailed message ∨
      outcome = BrowserOutcome.extractionFailed message)
    (hrange : startedAt + m.config.checkIntervalMs ≤ maxTimeValue) :
    (performCheck uc m trigger startedAt now outcome).1.state.status = Status.ERROR ∧
    (performCheck uc m trigger startedAt now outcome).1.state.lastError = some message ∧
    (performCheck uc m trigger startedAt now outcome).1.state.checkCount =
      m.state.checkCount + 1 ∧
    (performCheck uc m trigger startedAt now outcome).1.state.inFlight = false ∧
    (performCheck uc m trigger startedAt now outcome).1.state.nextCheckAt =
      some (startedAt + m.config.checkIntervalMs) ∧
    (performCheck uc m trigger startedAt now outcome).1.readyStreak = 0 ∧
    (performCheck uc m trigger startedAt now outcome).2 = Settlement.fulfilled := by
  have h := performCheckEnd_failed uc (performCheckBegin m trigger startedAt) startedAt now
    message outcome hfail hrange
  unfold performCheck
  rw [h]
  refine ⟨?_, ?_, ?_, ?_, ?_, rfl, rfl⟩ <;>
    simp [performCheckBegin, updateState, StateUpdate.empty] <;>
    split <;> rfl

/-- Witness of C6: a navigation timeout on a monitor that had reached streak 1, default
configuration. -/
theorem performCheck_failure_witness :
    (performCheck basicCase
        { CloudVsoshMonitor.create (defaultConfig []) 0 with readyStreak := 1 }
        Trigger.manual 1000 26000
        (BrowserOutcome.navigationFailed "page.goto: Timeout 25000ms exceeded.")).1.state.status =
      Status.ERROR ∧
    (performCheck basicCase
        { CloudVsoshMonitor.create (defaultConfig []) 0 with readyStreak := 1 }
        Trigger.manual 1000 26000
        (BrowserOutcome.navigationFailed "page.goto: Timeout 25000ms exceeded.")).1.readyStreak =
      0 :=
  ⟨(performCheck_failure basicCase
      { CloudVsoshMonitor.create (defaultConfig []) 0 with readyStreak := 1 }
      Trigger.manual 1000 26000 "page.goto: Timeout 25000ms exceeded."
      (BrowserOutcome.navigationFailed "page.goto: Timeout 25000ms exceeded.")
      (Or.inr (Or.inl rfl)) (by decide)).1,
   (performCheck_failure basicCase
      { CloudVsoshMonitor.create (defaultConfig []) 0 with readyStreak := 1 }
      Trigger.manual 1000 26000 "page.goto: Timeout 25000ms exceeded."
      (BrowserOutcome.navigationFailed "page.goto: Timeout 25000ms exceeded.")
      (Or.inr (Or.inl rfl)) (by decide)).2.2.2.2.2.1⟩

/-! ## Single flight -/

theorem performCheckEnd_config (uc : UnicodeCase) (m : CloudVsoshMonitor)
    (startedAt now : Timestamp) (outcome : BrowserOutcome) :
    (performCheckEnd uc m startedAt now outcome).1.config = m.config := by
  by_cases h : startedAt + m.config.checkIntervalMs ≤ maxTimeValue
  · cases outcome with
    | acquireFailed message =>
      rw [performCheckEnd_failed uc m startedAt now message _ (Or.inl rfl) h]
    | navigationFailed message =>
      rw [performCheckEnd_failed uc m startedAt now message _ (Or.inr (Or.inl rfl)) h]
    | extractionFailed message =>
      rw [performCheckEnd_failed uc m startedAt now message _ (Or.inr (Or.inr rfl)) h]
    | page url text => rw [performCheckEnd_page uc m startedAt now url text h]
  · rw [performCheckEnd_out_of_range uc m startedAt now outcome (Nat.lt_of_not_le h)]

theorem performCheckEnd_counts (uc : UnicodeCase) (m : CloudVsoshMonitor)
    (startedAt now : Timestamp) (outcome : BrowserOutcome) :
    (startedAt + m.config.checkIntervalMs ≤ maxTimeValue →
      (performCheckEnd uc m startedAt now outcome).1.state.checkCount =
        m.state.checkCount + 1 ∧
      (performCheckEnd uc m startedAt now outcome).2 = Settlement.fulfilled) ∧
    (maxTimeValue < startedAt + m.config.checkIntervalMs →
      (performCheckEnd uc m startedAt now outcome).1.state = m.state ∧
      (performCheckEnd uc m startedAt now outcome).2 =
        Settlement.rejected "Invalid time value") := by
  constructor
  · intro h
    cases outcome with
    | acquireFailed message =>
      rw [performCheckEnd_failed uc m startedAt now message _ (Or.inl rfl) h]
      exact ⟨by simp [updateState]; split <;> rfl, rfl⟩
    | navigationFailed message =>
      rw [performCheckEnd_failed uc m startedAt now message _ (Or.inr (Or.inl rfl)) h]
      exact ⟨by simp [updateState]; split <;> rfl, rfl⟩
    | extractionFailed message =>
      rw [performCheckEnd_failed uc m startedAt now message _ (Or.inr (Or.inr rfl)) h]
      exact ⟨by simp [updateState]; split <;> rfl, rfl⟩
    | page url text =>
      rw [performCheckEnd_page uc m startedAt now url text h]
      exact ⟨by simp [updateState]; split <;> rfl, rfl⟩
  · intro h
    rw [performCheckEnd_out_of_range uc m startedAt now outcome h]
    exact ⟨rfl, rfl⟩

theorem step_config (uc : UnicodeCase) (s : System) (ev : Event) :
    (step uc s ev).monitor.config = s.monitor.config := by
  cases ev with
  | start caller now =>
    simp only [step, start]
    split
    · rfl
    · simp only [runCheck]
      split <;> rfl
  | runCheck caller trigger now =>
    simp only [step, runCheck]
    split <;> rfl
  | browserDone promise now outcome =>
    simp only [step, browserDone]
    split
    · rfl
    · exact performCheckEnd_config uc _ _ _ _

theorem run_config (uc : UnicodeCase) (events : List Event) :
    ∀ s : System, (run uc s events).monitor.config = s.monitor.config := by
  induction events with
  | nil => intro s; rfl
  | cons ev rest ih =>
    intro s
    have h := ih (step uc s ev)
    simp only [run, List.foldl_cons] at h ⊢
    rw [h, step_config]

theorem singleFlight_create (cfg : Config) (now : Timestamp) :
    SingleFlight (System.create cfg now) :=
  Or.inl ⟨rfl, rfl⟩

theorem singleFlight_runCheck (s : System) (caller : Nat) (trigger : Trigger)
    (now : Timestamp) (h : SingleFlight s) : SingleFlight (runCheck s caller trigger now) := by
  rcases h with ⟨hp, he⟩ | ⟨e, hp, he⟩
  · right
    refine ⟨⟨s.nextPromise, now⟩, ?_, ?_⟩ <;> simp [runCheck, hp, he]
  · right
    refine ⟨e, ?_, ?_⟩ <;> simp [runCheck, hp, he]

theorem singleFlight_start (s : System) (caller : Nat) (now : Timestamp)
    (h : SingleFlight s) : SingleFlight (start s caller now) := by
  unfold start
  split
  · exact h
  · exact singleFlight_runCheck s caller Trigger.startup now h

theorem singleFlight_browserDone (uc : UnicodeCase) (s : System) (promise : Nat)
    (now : Timestamp) (outcome : BrowserOutcome) (h : SingleFlight s) :
    SingleFlight (browserDone uc s promise now outcome) := by
  rcases h with ⟨hp, he⟩ | ⟨e, hp, he⟩
  · left
    simp [browserDone, he, hp]
  · by_cases hq : e.promise = promise
    · left
      simp [browserDone, he, hq]
    · right
      refine ⟨e, ?_, ?_⟩ <;> simp [browserDone, he, hq, hp]

theorem singleFlight_run (uc : UnicodeCase) (events : List Event) :
    ∀ s : System, SingleFlight s → SingleFlight (run uc s events) := by
  induction events with
  | nil => intro s h; exact h
  | cons ev rest ih =>
    intro s h
    apply ih
    cases ev with
    | start caller now => exact singleFlight_start s caller now h
    | runCheck caller trigger now => exact singleFlight_runCheck s caller trigger now h
    | browserDone promise now outcome =>
      exact singleFlight_browserDone uc s promise now outcome h

theorem run_calls_attached (uc : UnicodeCase) (p : Nat)
    (calls : List (Nat × Trigger × Timestamp)) :
    ∀ s : System, s.monitor.checkPromise = some p →
      run uc s (calls.map callEvent) =
        { s with waiting := (calls.reverse.map (fun c => (c.1, p))) ++ s.waiting } := by
  induction calls with
  | nil => intro s _; rfl
  | cons c rest ih =>
    intro s hp
    have hstep : step uc s (callEvent c) = { s with waiting := (c.1, p) :: s.waiting } := by
      simp [step, callEvent, runCheck, hp]
    simp only [List.map_cons, run, List.foldl_cons, hstep]
    have := ih { s with waiting := (c.1, p) :: s.waiting } hp
    simp only [run] at this
    rw [this]
    simp

/-- Counterexample to C5 as stated: with `checkIntervalMs = 9e15` a manual check is
executing (promise 0) when three more callers call `runCheck`; when the browser answers,
the check throws while rendering `nextCheckAt`, so `checkCount` has not grown by 1 (it is
still 0) and the callers receive a rejection. -/
theorem runCheck_single_flight_counterexample :
    (run basicCase
        (System.create { defaultConfig [] with checkIntervalMs := 9000000000000000 } 0)
        [Event.runCheck 0 Trigger.manual 10]).executing = [⟨0, 10⟩] ∧
    (run basicCase
        (System.create { defaultConfig [] with checkIntervalMs := 9000000000000000 } 0)
        [Event.runCheck 0 Trigger.manual 10, Event.runCheck 1 Trigger.manual 11,
         Event.runCheck 2 Trigger.interval 12, Event.runCheck 3 Trigger.manual 13,
         Event.browserDone 0 20 (BrowserOutcome.page (defaultConfig []).targetUrl
           (utf16 "Ожидание результатов"))]).monitor.state.checkCount = 0 ∧
    (run basicCase
        (System.create { defaultConfig [] with checkIntervalMs := 9000000000000000 } 0)
        [Event.runCheck 0 Trigger.manual 10, Event.runCheck 1 Trigger.manual 11,
         Event.runCheck 2 Trigger.interval 12, Event.runCheck 3 Trigger.manual 13,
         Event.browserDone 0 20 (BrowserOutcome.page (defaultConfig []).targetUrl
           (utf16 "Ожидание результатов"))]).settled =
      [(3, 0, Settlement.rejected "Invalid time value"),
       (2, 0, Settlement.rejected "Invalid time value"),
       (1, 0, Settlement.rejected "Invalid time value"),
       (0, 0, Settlement.rejected "Invalid time value")] := by
  decide

/-- Claim C5, amended: in any state the process can reach (through `start`, `runCheck`
calls and browser answers), if a check `e` is executing then any number of further
`runCheck` calls start no check (the executing list, the promise counter and the monitor,
`checkCount` included, stay as they are) and attach every caller to the promise of `e`;
when the browser then answers, nothing executes any more, every one of the callers holds
the settlement of that one check, and `checkCount` has grown by exactly 1 when the start
time of `e` plus `checkIntervalMs` does not exceed the largest time value of a `Date`
(8.64e15 ms), and has not changed beyond it (the check is then rejected).  At no point of
any run are two checks executing. -/
theorem runCheck_single_flight (uc : UnicodeCase) (cfg : Config) (t0 : Timestamp)
    (history : List Event) (e : Execution)
    (hexec : e ∈ (run uc (System.create cfg t0) history).executing)
    (calls : List (Nat × Trigger × Timestamp)) (now : Timestamp) (outcome : BrowserOutcome) :
    (run uc (run uc (System.create cfg t0) history) (calls.map callEvent)).executing = [e] ∧
    (run uc (run uc (System.create cfg t0) history) (calls.map callEvent)).nextPromise =
      (run uc (System.create cfg t0) history).nextPromise ∧
    (run uc (run uc (System.create cfg t0) history) (calls.map callEvent)).monitor =
      (run uc (System.create cfg t0) history).monitor ∧
    (∀ c ∈ calls, (c.1, e.promise) ∈
      (run uc (run uc (System.create cfg t0) history) (calls.map callEvent)).waiting) ∧
    (e.startedAt + cfg.checkIntervalMs ≤ maxTimeValue →
      (browserDone uc (run uc (run uc (System.create cfg t0) history) (calls.map callEvent))
          e.promise now outcome).monitor.state.checkCount =
        (run uc (System.create cfg t0) history).monitor.state.checkCount + 1) ∧
    (maxTimeValue < e.startedAt + cfg.checkIntervalMs →
      (browserDone uc (run uc (run uc (System.create cfg t0) history) (calls.map callEvent))
          e.promise now outcome).monitor.state.checkCount =
        (run uc (System.create cfg t0) history).monitor.state.checkCount) ∧
    (browserDone uc (run uc (run uc (System.create cfg t0) history) (calls.map callEvent))
        e.promise now outcome).executing = [] ∧
    (∀ c ∈ calls,
      (c.1, e.promise,
        (performCheckEnd uc (run uc (System.create cfg t0) history).monitor e.startedAt now
          outcome).2) ∈
      (browserDone uc (run uc (run uc (System.create cfg t0) history) (calls.map callEvent))
        e.promise now outcome).settled) ∧
    (∀ events : List Event, (run uc (System.create cfg t0) events).executing.length ≤ 1) := by
  have hinv := singleFlight_run uc history _ (singleFlight_create cfg t0)
  have hcfg : (run uc (System.create cfg t0) history).monitor.config = cfg :=
    run_config uc history (System.create cfg t0)
  generalize run uc (System.create cfg t0) history = s at hexec hinv hcfg ⊢
  have hall : ∀ events : List Event,
      (run uc (System.create cfg t0) events).executing.length ≤ 1 := by
    intro events
    rcases singleFlight_run uc events _ (singleFlight_create cfg t0) with ⟨_, he⟩ | ⟨x, _, he⟩ <;>
      simp [he]
  rcases hinv with ⟨_, he⟩ | ⟨x, hp, he⟩
  · rw [he] at hexec
    exact absurd hexec (List.not_mem_nil _)
  · rw [he] at hexec
    have hx : e = x := by simpa using hexec
    subst hx
    rw [run_calls_attached uc e.promise calls s hp]
    have hcount := performCheckEnd_counts uc s.monitor e.startedAt now outcome
    rw [hcfg] at hcount
    refine ⟨he, rfl, rfl, ?_, ?_, ?_, ?_, ?_, hall⟩
    · intro c hc
      simp only [List.mem_append, List.mem_map, List.mem_reverse]
      exact Or.inl ⟨c, hc, rfl⟩
    · intro hrange
      simp [browserDone, he, (hcount.1 hrange).1]
    · intro hrange
      simp [browserDone, he, (hcount.2 hrange).1]
    · simp [browserDone, he]
    · intro c hc
      simp only [browserDone, he, List.find?_cons, beq_self_eq_true, List.mem_append,
        List.mem_map, List.mem_filter, List.mem_reverse]
      exact Or.inl ⟨(c.1, e.promise), ⟨Or.inl ⟨c, hc, rfl⟩, by simp⟩, rfl⟩

/-- Witness of C5: manual mode, `start()` at 5, then a manual check is executing (promise
0, started at 10) when three more callers arrive; after the browser answers, `checkCount`
is 1 and caller 3 holds the settlement of promise 0. -/
theorem runCheck_single_flight_witness :
    (browserDone basicCase
        (run basicCase
          (run basicCase (System.create (defaultConfig []) 0)
            [Event.start 0 5, Event.runCheck 0 Trigger.manual 10])
          ([(1, Trigger.manual, 11), (2, Trigger.interval, 12),
            (3, Trigger.manual, 13)].map callEvent))
        0 20 (BrowserOutcome.page (defaultConfig []).targetUrl
          (utf16 "Ожидание результатов"))).monitor.state.checkCount = 1 ∧
      (3, 0, Settlement.fulfilled) ∈
        (browserDone basicCase
          (run basicCase
            (run basicCase (System.create (defaultConfig []) 0)
              [Event.start 0 5, Event.runCheck 0 Trigger.manual 10])
            ([(1, Trigger.manual, 11), (2, Trigger.interval, 12),
              (3, Trigger.manual, 13)].map callEvent))
          0 20 (BrowserOutcome.page (defaultConfig []).targetUrl
            (utf16 "Ожидание результатов"))).settled :=
  ⟨(runCheck_single_flight basicCase (defaultConfig []) 0
      [Event.start 0 5, Event.runCheck 0 Trigger.manual 10] ⟨0, 10⟩ (by decide)
      [(1, Trigger.manual, 11), (2, Trigger.interval, 12), (3, Trigger.manual, 13)] 20
      (BrowserOutcome.page (defaultConfig []).targetUrl
        (utf16 "Ожидание результатов"))).2.2.2.2.1 (by decide),
   (runCheck_single_flight basicCase (defaultConfig []) 0
      [Event.start 0 5, Event.runCheck 0 Trigger.manual 10] ⟨0, 10⟩ (by decide)
      [(1, Trigger.manual, 11), (2, Trigger.interval, 12), (3, Trigger.manual, 13)] 20
      (BrowserOutcome.page (defaultConfig []).targetUrl
        (utf16 "Ожидание результатов"))).2.2.2.2.2.2.2.1 (3, Trigger.manual, 13) (by decide)⟩

/-! ## Manual mode -/

theorem performCheckEnd_nextCheckAt (uc : UnicodeCase) (m : CloudVsoshMonitor)
    (startedAt now : Timestamp) (outcome : BrowserOutcome)
    (hrange : startedAt + m.config.checkIntervalMs ≤ maxTimeValue) :
    (performCheckEnd uc m startedAt now outcome).1.state.nextCheckAt =
      some (startedAt + m.config.checkIntervalMs) := by
  cases outcome with
  | acquireFailed message =>
    rw [performCheckEnd_failed uc m startedAt now message _ (Or.inl rfl) hrange]
    simp [updateState]; split <;> rfl
  | navigationFailed message =>
    rw [performCheckEnd_failed uc m startedAt now message _ (Or.inr (Or.inl rfl)) hrange]
    simp [updateState]; split <;> rfl
  | extractionFailed message =>
    rw [performCheckEnd_failed uc m startedAt now message _ (Or.inr (Or.inr rfl)) hrange]
    simp [updateState]; split <;> rfl
  | page url text =>
    rw [performCheckEnd_page uc m startedAt now url text hrange]
    simp [updateState]; split <;> rfl

/-- Behaviour behind claim C8: with automatic checks disabled, `start()` leaves status
INITIALIZING, `checkCount` 0 and `nextCheckAt` null, but the first externally triggered
check, whatever its outcome, writes `nextCheckAt = startedAt + checkIntervalMs` (that sum
being a time value a `Date` can hold). -/
theorem manual_mode_nextCheckAt (uc : UnicodeCase) (cfg : Config) (t0 t1 t2 t3 : Timestamp)
    (caller caller' : Nat) (trigger : Trigger) (outcome : BrowserOutcome)
    (hmanual : cfg.autoChecksEnabled = false)
    (hrange : t2 + cfg.checkIntervalMs ≤ maxTimeValue) :
    (start (System.create cfg t0) caller t1).monitor.state.status = Status.INITIALIZING ∧
    (start (System.create cfg t0) caller t1).monitor.state.checkCount = 0 ∧
    (start (System.create cfg t0) caller t1).monitor.state.nextCheckAt = none ∧
    (start (System.create cfg t0) caller t1).executing = [] ∧
    (run uc (start (System.create cfg t0) caller t1)
        [Event.runCheck caller' trigger t2, Event.browserDone 0 t3 outcome]).monitor.state.nextCheckAt =
      some (t2 + cfg.checkIntervalMs) := by
  have hs : start (System.create cfg t0) caller t1 =
      { System.create cfg t0 with
        monitor := { (System.create cfg t0).monitor with
          state := updateState (System.create cfg t0).monitor.state t1
            { StateUpdate.empty with
              status := some Status.INITIALIZING
              statusLabel := some "Ручной режим"
              message := some "Проверка запускается только по кнопке (watch/check)"
              inFlight := some false
              nextCheckAt := some none } } } := by
    simp [start, System.create, CloudVsoshMonitor.create, hmanual]
  rw [hs]
  refine ⟨rfl, rfl, rfl, rfl, ?_⟩
  simp only [run, List.foldl_cons, List.foldl_nil, step, runCheck, System.create,
    CloudVsoshMonitor.create, browserDone, List.find?_cons, beq_self_eq_true]
  exact performCheckEnd_nextCheckAt uc _ t2 t3 outcome hrange

/-- Failing input of C8: default configuration (manual mode), `start()` at 1000, then a
manual check started at 2000 that reads the pending page: `nextCheckAt` is 32000. -/
theorem manual_mode_nextCheckAt_witness :
    (start (System.create (defaultConfig []) 0) 0 1000).monitor.state.nextCheckAt = none ∧
    (run basicCase (start (System.create (defaultConfig []) 0) 0 1000)
        [Event.runCheck 1 Trigger.manual 2000,
         Event.browserDone 0 2500 (BrowserOutcome.page (defaultConfig []).targetUrl
           (utf16 "Ожидание результатов"))]).monitor.state.nextCheckAt = some 32000 :=
  ⟨(manual_mode_nextCheckAt basicCase (defaultConfig []) 0 1000 2000 2500 0 1 Trigger.manual
      (BrowserOutcome.page (defaultConfig []).targetUrl (utf16 "Ожидание результатов"))
      rfl (by decide)).2.2.1,
   (manual_mode_nextCheckAt basicCase (defaultConfig []) 0 1000 2000 2500 0 1 Trigger.manual
      (BrowserOutcome.page (defaultConfig []).targetUrl (utf16 "Ожидание результатов"))
      rfl (by decide)).2.2.2.2⟩

/-! ## The token gate -/

theorem watch_path_not_open_route (pathname : JsString)
    (hpath : startsWith pathname (utf16 "/watch/") = true) :
    (pathname == utf16 "/health") = false ∧ (pathname == utf16 "/status") = false ∧
    (pathname == utf16 "/check") = false := by
  refine ⟨?_, ?_, ?_⟩ <;>
  · cases hb : (pathname == _)
    · rfl
    · rw [beq_iff_eq] at hb
      rw [hb] at hpath
      exact absurd hpath (by decide)

/-- Counterexample to C9 as stated: the configured token is "abc" and the request carries
`token=" abc"`, a different string; `tokenMatches` trims it, `/watch/check` is served with
200 and a check is run. -/
theorem watch_token_gate_counterexample :
    (some (utf16 " abc") ≠ some (defaultConfig (utf16 "abc")).watchToken) ∧
    (handleRequest (defaultConfig (utf16 "abc"))
        (fun m => performCheck basicCase m Trigger.manual 1000 2000
          (BrowserOutcome.page (defaultConfig (utf16 "abc")).targetUrl
            (utf16 "Ожидание результатов")))
        (CloudVsoshMonitor.create (defaultConfig (utf16 "abc")) 0)
        ⟨utf16 "/watch/check", some (utf16 " abc"), none, none⟩).response.statusCode = 200 ∧
    (handleRequest (defaultConfig (utf16 "abc"))
        (fun m => performCheck basicCase m Trigger.manual 1000 2000
          (BrowserOutcome.page (defaultConfig (utf16 "abc")).targetUrl
            (utf16 "Ожидание результатов")))
        (CloudVsoshMonitor.create (defaultConfig (utf16 "abc")) 0)
        ⟨utf16 "/watch/check", some (utf16 " abc"), none, none⟩).checksRequested = 1 ∧
    (handleRequest (defaultConfig (utf16 "abc"))
        (fun m => performCheck basicCase m Trigger.manual 1000 2000
          (BrowserOutcome.page (defaultConfig (utf16 "abc")).targetUrl
            (utf16 "Ожидание результатов")))
        (CloudVsoshMonitor.create (defaultConfig (utf16 "abc")) 0)
        ⟨utf16 "/watch/check", some (utf16 " abc"), none, none⟩).monitor.state.checkCount =
      1 := by
  decide

/-- Claim C9, amended: for a path under `/watch/`, without a configured token the answer
is 500; with one, a request whose `token` parameter, once white space around it is
trimmed, is not the configured token (an absent parameter counts as empty) gets 401, no
check is requested and the monitor is untouched; a request whose trimmed token equals the
configured one is dispatched to `/watch/status`, `/watch/check` and `/watch/view` (a
handler that awaits a check answers from the state afterwards, or 500 with the error when
the check is rejected), and only such a request gets status 200 or has a check
requested. -/
theorem watch_token_gate (cfg : Config)
    (awaitCheck : CloudVsoshMonitor → CloudVsoshMonitor × Settlement)
    (m : CloudVsoshMonitor) (req : Request)
    (hpath : startsWith req.pathname (utf16 "/watch/") = true) :
    (cfg.watchToken = [] →
      (handleRequest cfg awaitCheck m req).response.statusCode = 500 ∧
      (handleRequest cfg awaitCheck m req).monitor = m ∧
      (handleRequest cfg awaitCheck m req).checksRequested = 0) ∧
    (cfg.watchToken ≠ [] → trim (req.token.getD []) ≠ cfg.watchToken →
      (handleRequest cfg awaitCheck m req).response.statusCode = 401 ∧
      (handleRequest cfg awaitCheck m req).monitor = m ∧
      (handleRequest cfg awaitCheck m req).checksRequested = 0) ∧
    (cfg.watchToken ≠ [] → trim (req.token.getD []) = cfg.watchToken →
      (req.pathname = utf16 "/watch/status" →
        handleRequest cfg awaitCheck m req = ⟨watchStatusResponse req m.state, m, 0⟩) ∧
      (req.pathname = utf16 "/watch/check" → (awaitCheck m).2 = Settlement.fulfilled →
        handleRequest cfg awaitCheck m req =
          ⟨watchStatusResponse req (awaitCheck m).1.state, (awaitCheck m).1, 1⟩) ∧
      (req.pathname = utf16 "/watch/check" →
        ∀ reason, (awaitCheck m).2 = Settlement.rejected reason →
          handleRequest cfg awaitCheck m req =
            ⟨⟨500, Body.text ("error: " ++ reason ++ "\n")⟩, (awaitCheck m).1, 1⟩) ∧
      (req.pathname = utf16 "/watch/view" → req.check = some (utf16 "1") →
        (awaitCheck m).2 = Settlement.fulfilled →
        handleRequest cfg awaitCheck m req =
          ⟨⟨200, Body.html (awaitCheck m).1.state⟩, (awaitCheck m).1, 1⟩) ∧
      (req.pathname = utf16 "/watch/view" → req.check = some (utf16 "1") →
        ∀ reason, (awaitCheck m).2 = Settlement.rejected reason →
          handleRequest cfg awaitCheck m req =
            ⟨⟨500, Body.text ("error: " ++ reason ++ "\n")⟩, (awaitCheck m).1, 1⟩) ∧
      (req.pathname = utf16 "/watch/view" → req.check ≠ some (utf16 "1") →
        handleRequest cfg awaitCheck m req = ⟨⟨200, Body.html m.state⟩, m, 0⟩)) ∧
    ((handleRequest cfg awaitCheck m req).response.statusCode = 200 ∨
        (handleRequest cfg awaitCheck m req).checksRequested ≠ 0 →
      cfg.watchToken ≠ [] ∧ trim (req.token.getD []) = cfg.watchToken) := by
  obtain ⟨h1, h2, h3⟩ := watch_path_not_open_route req.pathname hpath
  have h500 : cfg.watchToken = [] →
      handleRequest cfg awaitCheck m req =
        ⟨⟨500, Body.text "watch token is not configured\n"⟩, m, 0⟩ := by
    intro h
    simp [handleRequest, h1, h2, h3, hpath, h]
  have h401 : cfg.watchToken ≠ [] → trim (req.token.getD []) ≠ cfg.watchToken →
      handleRequest cfg awaitCheck m req = ⟨⟨401, Body.text "unauthorized\n"⟩, m, 0⟩ := by
    intro hne hdiff
    have hempty : cfg.watchToken.isEmpty = false := by
      cases hw : cfg.watchToken with
      | nil => exact absurd hw hne
      | cons a l => rfl
    have htok : tokenMatches cfg req = false := by
      simp [tokenMatches, hdiff]
    simp [handleRequest, h1, h2, h3, hpath, hempty, htok]
  have hpass : cfg.watchToken ≠ [] → trim (req.token.getD []) = cfg.watchToken →
      cfg.watchToken.isEmpty = false ∧ tokenMatches cfg req = true := by
    intro hne heq
    have hempty : cfg.watchToken.isEmpty = false := by
      cases hw : cfg.watchToken with
      | nil => exact absurd hw hne
      | cons a l => rfl
    refine ⟨hempty, ?_⟩
    simp [tokenMatches, heq, hempty]
  have hne1 : (utf16 "/watch/check" == utf16 "/watch/status") = false := by decide
  have hne2 : (utf16 "/watch/view" == utf16 "/watch/status") = false := by decide
  have hne3 : (utf16 "/watch/view" == utf16 "/watch/check") = false := by decide
  refine ⟨?_, ?_, ?_, ?_⟩
  · intro h
    rw [h500 h]
    exact ⟨rfl, rfl, rfl⟩
  · intro hne hdiff
    rw [h401 hne hdiff]
    exact ⟨rfl, rfl, rfl⟩
  · intro hne heq
    obtain ⟨hempty, htok⟩ := hpass hne heq
    refine ⟨?_, ?_, ?_, ?_, ?_, ?_⟩
    · intro hp
      rw [hp] at h1 h2 h3 hpath
      simp [handleRequest, hp, hempty, htok, hpath, h1, h2, h3]
    · intro hp hok
      rw [hp] at h1 h2 h3 hpath
      simp [handleRequest, afterCheck, hp, hempty, htok, hpath, h1, h2, h3, hne1, hok]
    · intro hp reason hrej
      rw [hp] at h1 h2 h3 hpath
      simp [handleRequest, afterCheck, hp, hempty, htok, hpath, h1, h2, h3, hne1, hrej]
    · intro hp hc hok
      rw [hp] at h1 h2 h3 hpath
      simp [handleRequest, afterCheck, hp, hempty, htok, hpath, h1, h2, h3, hne2, hne3, hc,
        hok]
    · intro hp hc reason hrej
      rw [hp] at h1 h2 h3 hpath
      simp [handleRequest, afterCheck, hp, hempty, htok, hpath, h1, h2, h3, hne2, hne3, hc,
        hrej]
    · intro hp hc
      rw [hp] at h1 h2 h3 hpath
      simp [handleRequest, hp, hempty, htok, hpath, h1, h2, h3, hne2, hne3, hc]
  · intro hres
    by_cases hw : cfg.watchToken = []
    · rw [h500 hw] at hres
      simp at hres
    · by_cases heq : trim (req.token.getD []) = cfg.watchToken
      · exact ⟨hw, heq⟩
      · rw [h401 hw heq] at hres
        simp at hres

/-- Witness of C9: with token "abc" configured, `/watch/check` without a token parameter
is answered 401 and the monitor is untouched. -/
theorem watch_token_gate_witness :
    (handleRequest (defaultConfig (utf16 "abc"))
        (fun m => performCheck basicCase m Trigger.manual 1000 2000
          (BrowserOutcome.page (defaultConfig (utf16 "abc")).targetUrl
            (utf16 "Ожидание результатов")))
        (CloudVsoshMonitor.create (defaultConfig (utf16 "abc")) 0)
        ⟨utf16 "/watch/check", none, none, none⟩).response.statusCode = 401 ∧
    (handleRequest (defaultConfig (utf16 "abc"))
        (fun m => performCheck basicCase m Trigger.manual 1000 2000
          (BrowserOutcome.page (defaultConfig (utf16 "abc")).targetUrl
            (utf16 "Ожидание результатов")))
        (CloudVsoshMonitor.create (defaultConfig (utf16 "abc")) 0)
        ⟨utf16 "/watch/check", none, none, none⟩).monitor =
      CloudVsoshMonitor.create (defaultConfig (utf16 "abc")) 0 ∧
    (handleRequest (defaultConfig (utf16 "abc"))
        (fun m => performCheck basicCase m Trigger.manual 1000 2000
          (BrowserOutcome.page (defaultConfig (utf16 "abc")).targetUrl
            (utf16 "Ожидание результатов")))
        (CloudVsoshMonitor.create (defaultConfig (utf16 "abc")) 0)
        ⟨utf16 "/watch/check", none, none, none⟩).checksRequested = 0 :=
  (watch_token_gate (defaultConfig (utf16 "abc"))
    (fun m => performCheck basicCase m Trigger.manual 1000 2000
      (BrowserOutcome.page (defaultConfig (utf16 "abc")).targetUrl
        (utf16 "Ожидание результатов")))
    (CloudVsoshMonitor.create (defaultConfig (utf16 "abc")) 0)
    ⟨utf16 "/watch/check", none, none, none⟩ (by decide)).2.1 (by decide) (by decide)

end VsOSH
